import Mathlib

/-!
Shallow embedding of the remote session / process-streaming backend of the
repository (src/fly-backend/server.js) together with the client facade
(src/app/lib/webcontainer/index.ts).

The backend keeps a registry `containers : Map previewId Container`, where a
container owns a backing directory under `/tmp/<previewId>`, a set of
connected WebSocket clients, an in-memory file cache, and a set of in-flight
processes.  JavaScript `Map`s are embedded as association lists with
`Map.get`/`Map.set`/`Map.delete` counterparts `mGet`/`mSet`/`mDel`; the host
filesystem is embedded as a map from resolved path segments to file content
together with the set of existing directories, so that the fallible
filesystem calls inside the endpoints' `try/catch` blocks (`mkdirSync`
through an existing file, `writeFileSync`/`readFileSync` on a directory) are
reflected as the 500 responses the code produces.  Node's `path.join`
followed by normalization is embedded as segment-list normalization
(`normStep`, `joinResolve`).
-/

set_option autoImplicit false

namespace FlyBackend

/-- Association-list counterpart of JavaScript `Map.get`. -/
def mGet {κ α : Type} [DecidableEq κ] : List (κ × α) → κ → Option α
  | [], _ => none
  | (k', v) :: rest, k => if k' = k then some v else mGet rest k

/-- Association-list counterpart of JavaScript `Map.set` (replace in place or append). -/
def mSet {κ α : Type} [DecidableEq κ] : List (κ × α) → κ → α → List (κ × α)
  | [], k, v => [(k, v)]
  | (k', v') :: rest, k, v =>
    if k' = k then (k, v) :: rest else (k', v') :: mSet rest k v

/-- Association-list counterpart of JavaScript `Map.delete`. -/
def mDel {κ α : Type} [DecidableEq κ] (m : List (κ × α)) (k : κ) : List (κ × α) :=
  m.filter (fun p => decide (p.1 ≠ k))

/-- One step of POSIX path normalization as performed by Node's `path.join`:
empty and `.` segments are dropped, `..` removes the previous segment (at the
root it stays at the root, matching absolute-path semantics), and any other
segment is appended. -/
def normStep (acc : List String) (seg : String) : List String :=
  if seg = "" then acc
  else if seg = "." then acc
  else if seg = ".." then acc.dropLast
  else acc ++ [seg]

/-- Split a character list on `/`, accumulating the current (reversed)
segment; structural counterpart of splitting a path string on `/`. -/
def splitSegs : List Char → List Char → List String
  | [], cur => [String.mk cur.reverse]
  | ch :: rest, cur =>
    if ch = '/' then String.mk cur.reverse :: splitSegs rest []
    else splitSegs rest (ch :: cur)

/-- Split a client-supplied path on `/` into raw segments. -/
def splitPath (s : String) : List String := splitSegs s.data []

/-- Embedding of `path.join(dir, p)` for an absolute directory `dir` given as
normalized segments: concatenate and normalize.  This is the resolution used
by the file read/write endpoints and the execute endpoint of server.js. -/
def joinResolve (dir : List String) (p : String) : List String :=
  (dir ++ splitPath p).foldl normStep []

/-- The backing directory of a session, `path.join('/tmp', previewId)`,
as segments. -/
def containerDirSegs (previewId : String) : List String := ["tmp", previewId]

/-- Whether the resolved path `q` lies inside the directory `root`
(root itself included): `root` is an initial run of `q`'s segments. -/
def underDir (root q : List String) : Bool := decide (q.take root.length = root)

/-- A connected WebSocket client: an identity plus its `readyState === OPEN` flag. -/
structure Client where
  cid : Nat
  isOpen : Bool
deriving DecidableEq, Repr

/-- A session ("container") as stored in the backend registry: the preview id,
backing directory, connected clients, in-memory file cache and in-flight
process ids (keys of the `processes` map of server.js). -/
structure Container where
  id : String
  dir : List String
  clients : List Client
  files : List (String × String)
  processes : List String
deriving DecidableEq, Repr

/-- The host filesystem under the backend: the regular files (resolved path
segments mapped to content) and the directories known to exist.  Both are
needed because `writeFileSync` throws EISDIR when the target is an existing
directory, `mkdirSync` throws when a path component is an existing file, and
`readFileSync` throws EISDIR on a directory — all of which the endpoints turn
into 500 responses through their `try/catch`. -/
structure Disk where
  files : List (List String × String)
  dirs : List (List String)
deriving DecidableEq, Repr

/-- All initial runs of a segment list, shortest first, the full list
included: the chain of directories `mkdirSync(p, { recursive: true })`
walks. -/
def initialRuns : List String → List (List String)
  | [] => [[]]
  | x :: xs => [] :: (initialRuns xs).map (fun q => x :: q)

/-- Walk a directory chain in order, creating each directory until a
component turns out to be an existing regular file; returns whether the walk
completed (false models `mkdirSync` throwing ENOTDIR/EEXIST) together with
the disk after the directories created so far. -/
def mkdirRunsAux (d : Disk) : List (List String) → Bool × Disk
  | [] => (true, d)
  | q :: rest =>
    if (mGet d.files q).isSome then (false, d)
    else
      mkdirRunsAux
        { d with dirs := if d.dirs.contains q then d.dirs else d.dirs ++ [q] } rest

/-- Embedding of `fs.mkdirSync(p, { recursive: true })`. -/
def mkdirSyncRec (d : Disk) (p : List String) : Bool × Disk :=
  mkdirRunsAux d (initialRuns p)

/-- Embedding of `fs.writeFileSync(p, content)` at a point where `p`'s parent
directory exists: fails (EISDIR) when `p` is an existing directory, otherwise
creates or overwrites the regular file. -/
def fsWriteFile (d : Disk) (p : List String) (content : String) : Option Disk :=
  if d.dirs.contains p then none
  else some { d with files := mSet d.files p content }

/-- Node `path.dirname` on a normalized segment path (`dirname('/') = '/'`). -/
def dirnameSegs (p : List String) : List String := p.dropLast

/-- Global backend state: the registry of containers, the host filesystem and
the pending cleanup timeouts (previewId paired with the absolute time at
which the `setTimeout` callback of the close handler fires). -/
structure ServerState where
  containers : List (String × Container)
  disk : Disk
  timers : List (String × Nat)
deriving DecidableEq, Repr

/-- Broadcast events, as constructed at the five `broadcastToContainer` call
sites of server.js; each carries the `previewId` field the code puts in the
JSON payload. -/
inductive Event where
  | fileChange (previewId path : String)
  | processOutput (previewId processId output stream : String)
  | processCompleted (previewId processId : String) (exitCode : Nat)
  | previewReady (previewId url : String) (timestamp : Nat)
  | refreshPreview (previewId : String)
deriving DecidableEq, Repr

/-- The session identifier an event carries (the `previewId` field of the
broadcast JSON payload). -/
def Event.sessionId : Event → String
  | .fileChange pid _ => pid
  | .processOutput pid _ _ _ => pid
  | .processCompleted pid _ _ => pid
  | .previewReady pid _ _ => pid
  | .refreshPreview pid => pid

/-- Whether an event is a `process-completed` event. -/
def Event.isCompleted : Event → Bool
  | .processCompleted _ _ _ => true
  | _ => false

/-- Outcome of an HTTP endpoint: a success payload or `res.status(code).json({error})`. -/
inductive ApiResult (α : Type) where
  | success (a : α)
  | failure (status : Nat) (msg : String)
deriving DecidableEq, Repr

/-- The error object Node passes to the `exec` callback when the child did not
exit with status 0; `code` is the child's exit status. -/
structure ExecError where
  code : Nat
deriving DecidableEq, Repr

/-- Behavior of the environment for one execute request.  `mkdirFail` models
`fs.mkdirSync` throwing inside the `try` block (working directory
unavailable).  `shellRuns` models `child_process.exec`, which always starts a
shell: the shell emits the given stdout/stderr chunks and exits with
`exitCode`.  A command that is not found never fails the spawn itself — the
shell reports it by exiting with status 127. -/
inductive CmdBehavior where
  | mkdirFail (msg : String)
  | shellRuns (exitCode : Nat) (stdoutChunks stderrChunks : List String)
deriving DecidableEq, Repr

/-- Node's exec semantics for a command that is not found: the shell runs,
prints a diagnostic on stderr, and exits with status 127. -/
def commandNotFound (diagnostic : String) : CmdBehavior :=
  .shellRuns 127 [] [diagnostic]

/-- server.js `createContainer(previewId)`: backing directory
`path.join('/tmp', previewId)`, empty client set, file cache and process map. -/
def createContainer (previewId : String) : Container :=
  { id := previewId
    dir := containerDirSegs previewId
    clients := []
    files := []
    processes := [] }

/-- The get-or-create pattern repeated at the connection handler and the
write/execute endpoints of server.js: return the stored container, or
allocate one with `createContainer` and store it.  `createContainer` also
runs `mkdirSync(containerDir, { recursive: true })`; that call is modeled as
succeeding and recording the directory chain — it could only throw if an
earlier traversal write had left a regular file at `/tmp/<previewId>` itself,
a cross-session interference outside the scope of every claim here. -/
def getOrCreate (st : ServerState) (previewId : String) : Container × ServerState :=
  match mGet st.containers previewId with
  | some c => (c, st)
  | none =>
    let c := createContainer previewId
    (c, { st with
          containers := mSet st.containers previewId c
          disk := (mkdirSyncRec st.disk (containerDirSegs previewId)).2 })

/-- Update the container stored under `previewId`, if any (mutation of the
captured container object is observable through the registry only while the
entry is present). -/
def updateContainer (st : ServerState) (previewId : String) (f : Container → Container) :
    ServerState :=
  match mGet st.containers previewId with
  | some c => { st with containers := mSet st.containers previewId (f c) }
  | none => st

/-- The WebSocket connection handler of server.js.  `previewIdParam` is
`url.searchParams.get('previewId')` (absent parameter gives `none`; JavaScript
`!previewId` also treats the empty string as missing).  On a valid id, the
container is fetched or created and the socket joins its client set.  The
returned Boolean is true when the socket was closed immediately. -/
def handleConnection (st : ServerState) (previewIdParam : Option String) (c : Client) :
    ServerState × Bool :=
  match previewIdParam with
  | none => (st, true)
  | some previewId =>
    if previewId = "" then (st, true)
    else
      let r := getOrCreate st previewId
      let container := r.1
      let st1 := r.2
      let container' := { container with clients := container.clients ++ [c] }
      ({ st1 with containers := mSet st1.containers previewId container' }, false)

/-- The WebSocket `close` handler of server.js: remove the client from the
container's client set; if the set became empty, schedule a cleanup check
300000 ms (5 minutes) later.  The pending timeout is never cancelled. -/
def handleClose (st : ServerState) (previewId : String) (c : Client) (now : Nat) :
    ServerState :=
  match mGet st.containers previewId with
  | none => st
  | some container =>
    let container' := { container with
                        clients := container.clients.filter (fun x => decide (x ≠ c)) }
    let newTimers :=
      if container'.clients.isEmpty then st.timers ++ [(previewId, now + 300000)]
      else st.timers
    { st with containers := mSet st.containers previewId container', timers := newTimers }

/-- The body of the `setTimeout` callback scheduled by the close handler: the
fired timeout is spent, and the container is deleted from the registry only if
`containers.get(previewId)?.clients.size === 0` still holds at firing time. -/
def fireTimer (st : ServerState) (previewId : String) (scheduledAt : Nat) : ServerState :=
  let st1 := { st with
               timers := st.timers.eraseP
                 (fun p => decide (p.1 = previewId) && decide (p.2 = scheduledAt)) }
  match mGet st1.containers previewId with
  | some c =>
    if c.clients.isEmpty then { st1 with containers := mDel st1.containers previewId }
    else st1
  | none => st1

/-- Registry-affecting occurrences in the event loop: a WebSocket connection
for a session, a WebSocket close, and the firing of a scheduled cleanup
timeout. -/
inductive SysEvent where
  | connect (previewId : String) (c : Client)
  | wsClose (previewId : String) (c : Client)
  | timerFire (previewId : String)
deriving DecidableEq, Repr

/-- One event-loop step at absolute time `now`.  A cleanup timeout may fire
only if it was actually scheduled for `now` (otherwise the step is invalid
and the run is rejected). -/
def step (st : ServerState) (now : Nat) (e : SysEvent) : Option ServerState :=
  match e with
  | .connect pid c => some (handleConnection st (some pid) c).1
  | .wsClose pid c => some (handleClose st pid c now)
  | .timerFire pid =>
    if st.timers.contains (pid, now) then some (fireTimer st pid now) else none

/-- Run a time-ordered list of event-loop occurrences; `none` when some
timeout fires at a time it was not scheduled for, or out of time order. -/
def run (st : ServerState) (now : Nat) : List (Nat × SysEvent) → Option ServerState
  | [] => some st
  | (t, e) :: rest =>
    if now ≤ t then
      match step st t e with
      | some st' => run st' t rest
      | none => none
    else none

/-- server.js `broadcastToContainer(previewId, data)`: the list of clients the
message is sent to — every client of that container whose `readyState` is
`OPEN`; an unknown container broadcasts to nobody.  The event payload itself
is not inspected. -/
def broadcastToContainer (st : ServerState) (previewId : String) (ev : Event) :
    List Client :=
  match mGet st.containers previewId with
  | none => []
  | some container => container.clients.filter (fun cl => cl.isOpen)

/-- Message types a client can send over the WebSocket (the `data.type` field
parsed by the message handler of server.js). -/
inductive ClientMsg where
  | fileChange
  | previewReady
  | other (tag : String)
deriving DecidableEq, Repr

/-- The WebSocket `message` handler of server.js: a client `file-change`
message triggers a `refresh-preview` broadcast, a client `preview-ready`
message triggers a `preview-ready` broadcast with the session's preview URL;
anything else is ignored. -/
def handleWsMessage (previewId : String) (msg : ClientMsg) (now : Nat) : List Event :=
  match msg with
  | .fileChange => [.refreshPreview previewId]
  | .previewReady => [.previewReady previewId ("/preview/" ++ previewId) now]
  | .other _ => []

/-- The `POST /api/files/write/:previewId` endpoint: reject a missing (empty)
path with 400, otherwise get-or-create the container, then inside the
`try/catch`: `mkdirSync(dirname(join(container.dir, filePath)), recursive)`
— a throw (a path component is an existing file) answers 500 with the
directories created so far kept; then `writeFileSync(join(...), content)` —
a throw (the target is an existing directory) answers 500; on success the
content is cached under the raw path and a `file-change` event is
broadcast. -/
def filesWrite (st : ServerState) (previewId filePath content : String) :
    ApiResult Unit × ServerState × List Event :=
  if filePath = "" then (.failure 400 "Missing required parameters", st, [])
  else
    let r := getOrCreate st previewId
    let container := r.1
    let st1 := r.2
    let resolved := joinResolve container.dir filePath
    match mkdirSyncRec st1.disk (dirnameSegs resolved) with
    | (false, d1) => (.failure 500 "ENOTDIR", { st1 with disk := d1 }, [])
    | (true, d1) =>
      match fsWriteFile d1 resolved content with
      | none => (.failure 500 "EISDIR", { st1 with disk := d1 }, [])
      | some d2 =>
        let container' :=
          { container with files := mSet container.files filePath content }
        (.success (),
         { st1 with
           containers := mSet st1.containers previewId container'
           disk := d2 },
         [Event.fileChange previewId filePath])

/-- The `GET /api/files/read/:previewId` endpoint: reject a missing (empty)
path with 400; an unknown container is 404 `Container not found` (no
get-or-create here); otherwise serve the in-memory cache first; on a cache
miss, if `existsSync` holds at the resolved location, `readFileSync` is
attempted — a regular file is returned and cached, while a directory makes
`readFileSync` throw EISDIR, answered 500 by the `catch`; when nothing
exists there the answer is 404 `File not found`. -/
def filesRead (st : ServerState) (previewId filePath : String) :
    ApiResult String × ServerState :=
  if filePath = "" then (.failure 400 "Missing path parameter", st)
  else
    match mGet st.containers previewId with
    | none => (.failure 404 "Container not found", st)
    | some container =>
      match mGet container.files filePath with
      | some content => (.success content, st)
      | none =>
        let resolved := joinResolve container.dir filePath
        if (mGet st.disk.files resolved).isSome || st.disk.dirs.contains resolved then
          match mGet st.disk.files resolved with
          | some content =>
            let container' := { container with
                                files := mSet container.files filePath content }
            (.success content,
             { st with containers := mSet st.containers previewId container' })
          | none => (.failure 500 "EISDIR", st)
        else (.failure 404 "File not found", st)

/-- The `exec` completion callback of the execute endpoint: delete the process
from the container's process map, then broadcast a single `process-completed`
event whose `exitCode` field is `error ? error.code : 0`. -/
def execCallback (st : ServerState) (previewId processId : String)
    (err : Option ExecError) : ServerState × List Event :=
  let st' := updateContainer st previewId
    (fun c => { c with processes := c.processes.filter (fun q => decide (q ≠ processId)) })
  let exitCode := match err with
    | some e => e.code
    | none => 0
  (st', [Event.processCompleted previewId processId exitCode])

/-- The `POST /api/execute/:previewId` endpoint followed to quiescence of the
spawned child.  A missing (empty) command is 400.  Otherwise the container is
fetched or created; if preparing the working directory throws, the response is
500 and nothing else happens.  Otherwise `exec` starts a shell, the fresh
process id is registered in the container's process map and returned in the
response; each stdout/stderr chunk is broadcast as a `process-output` event;
when the shell exits, the completion callback runs (`err` is `none` exactly
for exit status 0). -/
def executeLifecycle (st : ServerState) (previewId command cwdArg processId : String)
    (beh : CmdBehavior) : ApiResult String × ServerState × List Event :=
  if command = "" then (.failure 400 "Missing command parameter", st, [])
  else
    let r := getOrCreate st previewId
    let container := r.1
    let st1 := r.2
    match beh with
    | .mkdirFail msg => (.failure 500 msg, st1, [])
    | .shellRuns exitCode outChunks errChunks =>
      let container' := { container with processes := processId :: container.processes }
      let st2 := { st1 with containers := mSet st1.containers previewId container' }
      let outputEvents :=
        outChunks.map (fun o => Event.processOutput previewId processId o "stdout")
          ++ errChunks.map (fun o => Event.processOutput previewId processId o "stderr")
      let err : Option ExecError := if exitCode = 0 then none else some ⟨exitCode⟩
      let cb := execCallback st2 previewId processId err
      (.success processId, cb.1, outputEvents ++ cb.2)

/-- Whether a process id is registered in the session's process map. -/
def processRegistered (st : ServerState) (previewId processId : String) : Bool :=
  match mGet st.containers previewId with
  | some c => c.processes.any (fun q => decide (q = processId))
  | none => false

/-- Whether a client is registered in the session's client set. -/
def clientRegistered (st : ServerState) (previewId : String) (cl : Client) : Bool :=
  match mGet st.containers previewId with
  | some c => c.clients.any (fun x => decide (x = cl))
  | none => false

/-- Whether the session currently has an empty client set (an absent session
counts as empty, matching `containers.get(previewId)?.clients.size === 0`). -/
def clientsEmptyB (st : ServerState) (previewId : String) : Bool :=
  match mGet st.containers previewId with
  | some c => c.clients.isEmpty
  | none => true

/-- One segment of an Express route pattern: a literal, a `:param`
(one non-empty path segment), or a trailing `*` wildcard. -/
inductive Seg where
  | lit (s : String)
  | param
  | wildcard
deriving DecidableEq, Repr

/-- Whether one pattern segment matches one request path segment. -/
def segMatches : Seg → String → Bool
  | .lit s, t => decide (s = t)
  | .param, t => decide (t ≠ "")
  | .wildcard, _ => true

/-- Whether an Express route pattern matches a request path (as segments). -/
def patMatches : List Seg → List String → Bool
  | [], [] => true
  | .wildcard :: _, _ => true
  | p :: ps, t :: ts => segMatches p t && patMatches ps ts
  | _, _ => false

/-- An Express route: HTTP method plus path pattern. -/
structure RoutePattern where
  method : String
  segs : List Seg
deriving DecidableEq, Repr

/-- The complete list of routes server.js registers with
`app.post`/`app.get`: file write, file read, execute, and the two preview
routes.  There is no `/api/files/rm`, `/api/files/mkdir` or
`/api/files/readdir` route. -/
def serverRoutes : List RoutePattern :=
  [ ⟨"POST", [.lit "api", .lit "files", .lit "write", .param]⟩,
    ⟨"GET",  [.lit "api", .lit "files", .lit "read",  .param]⟩,
    ⟨"POST", [.lit "api", .lit "execute", .param]⟩,
    ⟨"GET",  [.lit "preview", .param]⟩,
    ⟨"GET",  [.lit "preview", .param, .wildcard]⟩ ]

/-- The registered routes matching a request. -/
def routesFor (method : String) (pathSegs : List String) : List RoutePattern :=
  serverRoutes.filter (fun r => decide (r.method = method) && patMatches r.segs pathSegs)

/-- Express dispatch: if no registered route matches, the framework's final
handler answers 404 without running any application code (state untouched);
otherwise the first matching route's handler runs.  The handler semantics is
a parameter, so conclusions drawn for unmatched requests hold whatever the
handlers do. -/
def expressRespond (st : ServerState) (method : String) (pathSegs : List String)
    (handler : RoutePattern → ServerState → Nat × ServerState) : Nat × ServerState :=
  match routesFor method pathSegs with
  | [] => (404, st)
  | r :: _ => handler r st

/-- The request path of the client facade's `fs.rm`,
`POST /api/files/rm/<previewId>`, as segments. -/
def rmRequestSegs (previewId : String) : List String :=
  ["api", "files", "rm", previewId]

/-- The client facade's `fs.rm` (src/app/lib/webcontainer/index.ts): the
request body carries the path and the recursive flag; a non-2xx response
status makes the facade throw `Failed to remove: <path>`. -/
def clientRm (p : String) (recursive : Bool) (status : Nat) : Except String Unit :=
  if 200 ≤ status ∧ status < 300 then .ok ()
  else .error ("Failed to remove: " ++ p)

theorem mGet_mSet_self {κ α : Type} [DecidableEq κ] (m : List (κ × α)) (k : κ) (v : α) :
    mGet (mSet m k v) k = some v := by
  induction m with
  | nil => simp [mGet, mSet]
  | cons hd tl ih =>
    obtain ⟨k', v'⟩ := hd
    by_cases h : k' = k
    · simp [mGet, mSet, h]
    · simp [mGet, mSet, h, ih]

theorem mGet_mSet_ne {κ α : Type} [DecidableEq κ] (m : List (κ × α)) (k k' : κ) (v : α)
    (h : k' ≠ k) : mGet (mSet m k v) k' = mGet m k' := by
  have h' : ¬ (k = k') := fun hh => h hh.symm
  induction m with
  | nil => simp [mGet, mSet, h']
  | cons hd tl ih =>
    obtain ⟨k0, v0⟩ := hd
    by_cases h0 : k0 = k
    · subst h0
      simp [mGet, mSet, h']
    · simp [mGet, mSet, h0, ih]

theorem mGet_mDel_self {κ α : Type} [DecidableEq κ] (m : List (κ × α)) (k : κ) :
    mGet (mDel m k) k = none := by
  induction m with
  | nil => rfl
  | cons hd tl ih =>
    obtain ⟨k', v'⟩ := hd
    by_cases h : k' = k
    · simpa [mDel, h] using ih
    · simpa [mDel, mGet, h] using ih

theorem mGet_mDel_ne {κ α : Type} [DecidableEq κ] (m : List (κ × α)) (k k' : κ)
    (h : k' ≠ k) : mGet (mDel m k) k' = mGet m k' := by
  induction m with
  | nil => rfl
  | cons hd tl ih =>
    obtain ⟨k0, v0⟩ := hd
    by_cases h0 : k0 = k
    · subst h0
      have h' : ¬ (k0 = k') := fun hh => h hh.symm
      simpa [mDel, mGet, h'] using ih
    · by_cases h1 : k0 = k'
      · simp [mDel, mGet, h0, h1, h]
      · simpa [mDel, mGet, h0, h1] using ih

theorem take_append_self (l r : List String) : (l ++ r).take l.length = l := by
  induction l with
  | nil => rfl
  | cons h t ih => simp [ih]

theorem underDir_append (root rest : List String) :
    underDir root (root ++ rest) = true := by
  simp [underDir, take_append_self]

theorem foldl_normStep_extends (xs : List String) :
    ∀ acc : List String, (∀ s ∈ xs, s ≠ "..") →
      ∃ ys, xs.foldl normStep acc = acc ++ ys := by
  induction xs with
  | nil => exact fun acc _ => ⟨[], by simp⟩
  | cons x t ih =>
    intro acc h
    have hx : x ≠ ".." := h x (by simp)
    by_cases h0 : x = ""
    · obtain ⟨ys, hys⟩ := ih acc (fun s hs => h s (by simp [hs]))
      exact ⟨ys, by simpa [normStep, h0] using hys⟩
    · by_cases h1 : x = "."
      · obtain ⟨ys, hys⟩ := ih acc (fun s hs => h s (by simp [hs]))
        exact ⟨ys, by simpa [normStep, h0, h1] using hys⟩
      · obtain ⟨ys, hys⟩ := ih (acc ++ [x]) (fun s hs => h s (by simp [hs]))
        refine ⟨x :: ys, ?_⟩
        simpa [normStep, h0, h1, hx] using hys

theorem filter_isCompleted_map_output (previewId processId stream : String)
    (l : List String) :
    (l.map (fun o => Event.processOutput previewId processId o stream)).filter
      Event.isCompleted = [] := by
  induction l with
  | nil => rfl
  | cons h t ih => simp [Event.isCompleted, ih]

theorem any_filter_ne_self (a : String) (l : List String) :
    (l.filter (fun q => decide (q ≠ a))).any (fun q => decide (q = a)) = false := by
  induction l with
  | nil => rfl
  | cons h t ih =>
    by_cases hh : h = a
    · simp [hh, ih]
    · simp [hh, ih]

theorem handleConnection_preserves_present (st : ServerState) (pid' : String)
    (cl : Client) (pid : String) (h : (mGet st.containers pid).isSome = true) :
    (mGet (handleConnection st (some pid') cl).1.containers pid).isSome = true := by
  by_cases hid : pid' = ""
  · simpa [handleConnection, hid] using h
  · by_cases hpp : pid = pid'
    · subst hpp
      simp [handleConnection, hid, mGet_mSet_self]
    · cases hg : mGet st.containers pid' with
      | some c0 => simp [handleConnection, hid, getOrCreate, hg, mGet_mSet_ne, hpp, h]
      | none => simp [handleConnection, hid, getOrCreate, hg, mGet_mSet_ne, hpp, h]

theorem handleClose_preserves_present (st : ServerState) (pid' : String) (cl : Client)
    (now : Nat) (pid : String) (h : (mGet st.containers pid).isSome = true) :
    (mGet (handleClose st pid' cl now).containers pid).isSome = true := by
  cases hg : mGet st.containers pid' with
  | none => simpa [handleClose, hg] using h
  | some c0 =>
    by_cases hpp : pid = pid'
    · subst hpp
      simp [handleClose, hg, mGet_mSet_self]
    · simp [handleClose, hg, mGet_mSet_ne, hpp, h]

theorem fireTimer_keeps_nonempty (st : ServerState) (pid : String) (tf : Nat)
    (c : Container) (hm : mGet st.containers pid = some c)
    (hne : c.clients.isEmpty = false) :
    mGet (fireTimer st pid tf).containers pid = some c := by
  simp [fireTimer, hm, hne]

theorem fireTimer_removes_empty (st : ServerState) (pid : String) (tf : Nat)
    (c : Container) (hm : mGet st.containers pid = some c)
    (he : c.clients.isEmpty = true) :
    mGet (fireTimer st pid tf).containers pid = none := by
  simp [fireTimer, hm, he, mGet_mDel_self]

theorem fireTimer_other (st : ServerState) (pid' : String) (tf : Nat) (pid : String)
    (hpp : pid ≠ pid') :
    mGet (fireTimer st pid' tf).containers pid = mGet st.containers pid := by
  cases hg : mGet st.containers pid' with
  | none => simp [fireTimer, hg]
  | some c0 =>
    by_cases hemp : c0.clients.isEmpty
    · simp [fireTimer, hg, hemp, mGet_mDel_ne, hpp]
    · simp [fireTimer, hg, hemp]

/-- C6: for every session identifier, the get-or-create pattern is idempotent:
a second call with the same identifier returns the very container stored by
the first call and leaves the registry state unchanged, so no new backing
structure is allocated and the client/process sets are not duplicated. -/
theorem getOrCreate_idempotent (st : ServerState) (previewId : String) :
    getOrCreate (getOrCreate st previewId).2 previewId = getOrCreate st previewId := by
  cases hm : mGet st.containers previewId with
  | some c => simp [getOrCreate, hm]
  | none => simp [getOrCreate, hm, mGet_mSet_self]

/-- C10: a WebSocket connection request whose URL has no `previewId` query
parameter is closed immediately (second component `true`) and the registry
state is returned exactly as it was: no session is created and no client
connection is registered. -/
theorem wsConnection_missing_previewId_rejected (st : ServerState) (c : Client) :
    handleConnection st none c = (st, true) := rfl

/-- C2 counterexample: the claim fails at several paths.  The empty path is
rejected 400 by `!filePath`; the path `.` resolves to the session's backing
directory itself, so `writeFileSync` throws EISDIR and the endpoint answers
500; and after writing a file `a`, writing `a/b` makes `mkdirSync` walk
through the regular file `a` and throw, again answered 500 — in each case the
round trip does not return the written content. -/
theorem writeRead_roundtrip_counterexample :
    ((filesRead (filesWrite ⟨[], ⟨[], []⟩, []⟩ "s1" "" "hello").2.1 "s1" "").1
      ≠ ApiResult.success "hello")
    ∧ ((filesWrite ⟨[], ⟨[], []⟩, []⟩ "s1" "." "hello").1
      = ApiResult.failure 500 "EISDIR")
    ∧ ((filesWrite (filesWrite ⟨[], ⟨[], []⟩, []⟩ "s1" "a" "x").2.1 "s1" "a/b" "y").1
      = ApiResult.failure 500 "ENOTDIR") := by decide

/-- C2 amended: whenever the write request succeeds — it is answered 400 for
an empty path and 500 when a filesystem call inside the `try` throws (the
path resolving to an existing directory, or crossing an existing regular
file) — a read of the same path within the same session returns exactly the
written content, for every content value including the empty string and for
paths whose intermediate directories did not yet exist. -/
theorem write_then_read_returns_content (st : ServerState) (previewId p c : String)
    (hw : (filesWrite st previewId p c).1 = ApiResult.success ()) :
    (filesRead (filesWrite st previewId p c).2.1 previewId p).1 = .success c := by
  by_cases hp : p = ""
  · rw [hp] at hw
    simp [filesWrite] at hw
  · simp only [filesWrite, if_neg hp] at hw ⊢
    rcases hmd : mkdirSyncRec (getOrCreate st previewId).2.disk
        (dirnameSegs (joinResolve (getOrCreate st previewId).1.dir p)) with ⟨ok, d1⟩
    rw [hmd] at hw
    cases ok with
    | false => simp at hw
    | true =>
      cases hfw : fsWriteFile d1 (joinResolve (getOrCreate st previewId).1.dir p) c with
      | none => simp [hfw] at hw
      | some d2 =>
        simp only [hfw]
        simp [filesRead, hp, mGet_mSet_self]

/-- C2 witness: writing `<h1>hi</h1>` at the nested path `src/index.html` in
a fresh session (its intermediate directory does not yet exist) succeeds, and
reading it back returns exactly the written content. -/
theorem write_then_read_returns_content_witness :
    (filesRead (filesWrite ⟨[], ⟨[], []⟩, []⟩ "s1" "src/index.html" "<h1>hi</h1>").2.1
        "s1" "src/index.html").1 = ApiResult.success "<h1>hi</h1>" :=
  write_then_read_returns_content ⟨[], ⟨[], []⟩, []⟩ "s1" "src/index.html" "<h1>hi</h1>"
    (by decide)

/-- C7 counterexample: a file read referencing a previously unseen session
identifier does not create a session — it fails with 404 `Container not
found` and leaves the registry state unchanged. -/
theorem read_unseen_session_counterexample :
    filesRead ⟨[], ⟨[], []⟩, []⟩ "s1" "index.html"
      = (ApiResult.failure 404 "Container not found", ⟨[], ⟨[], []⟩, []⟩) := by decide

/-- C7 amended: a file write, a command execution (whatever the spawn
outcome) and a WebSocket connection each create a session for a previously
unseen identifier; the file read endpoint alone does not (see the
counterexample). -/
theorem session_created_on_write_execute_connect (st : ServerState)
    (previewId p content command cwdArg processId : String) (cl : Client)
    (beh : CmdBehavior)
    (hunseen : mGet st.containers previewId = none)
    (hp : p ≠ "") (hc : command ≠ "") (hid : previewId ≠ "") :
      ((mGet (filesWrite st previewId p content).2.1.containers previewId).isSome = true)
    ∧ ((mGet (executeLifecycle st previewId command cwdArg processId beh).2.1.containers
          previewId).isSome = true)
    ∧ ((mGet (handleConnection st (some previewId) cl).1.containers previewId).isSome
        = true) := by
  refine ⟨?_, ?_, ?_⟩
  · simp only [filesWrite, if_neg hp]
    rcases hmd : mkdirSyncRec (getOrCreate st previewId).2.disk
        (dirnameSegs (joinResolve (getOrCreate st previewId).1.dir p)) with ⟨ok, d1⟩
    cases ok with
    | false => simp [getOrCreate, hunseen, mGet_mSet_self]
    | true =>
      cases hfw : fsWriteFile d1 (joinResolve (getOrCreate st previewId).1.dir p)
          content with
      | none =>
        simp only [hfw]
        simp [getOrCreate, hunseen, mGet_mSet_self]
      | some d2 =>
        simp only [hfw]
        simp [getOrCreate, hunseen, mGet_mSet_self]
  · cases beh with
    | mkdirFail msg => simp [executeLifecycle, hc, getOrCreate, hunseen, mGet_mSet_self]
    | shellRuns n outs errs =>
      simp [executeLifecycle, hc, getOrCreate, hunseen, execCallback, updateContainer,
        mGet_mSet_self]
  · simp [handleConnection, hid, getOrCreate, hunseen, mGet_mSet_self]

/-- C7 witness: on a fresh registry, a write, an execute and a connection for
the unseen identifier `s1` each leave a session registered under `s1`. -/
theorem session_created_on_write_execute_connect_witness :
      ((mGet (filesWrite ⟨[], ⟨[], []⟩, []⟩ "s1" "a.txt" "x").2.1.containers "s1").isSome = true)
    ∧ ((mGet (executeLifecycle ⟨[], ⟨[], []⟩, []⟩ "s1" "echo" "/" "p1"
          (.shellRuns 0 [] [])).2.1.containers "s1").isSome = true)
    ∧ ((mGet (handleConnection ⟨[], ⟨[], []⟩, []⟩ (some "s1") ⟨1, true⟩).1.containers
          "s1").isSome = true) :=
  session_created_on_write_execute_connect ⟨[], ⟨[], []⟩, []⟩ "s1" "a.txt" "x" "echo" "/" "p1"
    ⟨1, true⟩ (.shellRuns 0 [] []) (by decide) (by decide) (by decide) (by decide)

/-- C1 counterexample: the endpoints resolve client paths with
`path.join(container.dir, filePath)` and no containment check, so a path with
`..` segments escapes the session root: for session `abc`, the path
`../escape.txt` resolves to `/tmp/escape.txt`, outside `/tmp/abc`, and a write
request actually persists content at that outside location. -/
theorem path_confinement_counterexample :
    (underDir (containerDirSegs "abc")
        (joinResolve (containerDirSegs "abc") "../escape.txt") = false)
    ∧ (mGet (filesWrite ⟨[], ⟨[], []⟩, []⟩ "abc" "../escape.txt" "pwned").2.1.disk.files
        ["tmp", "escape.txt"] = some "pwned") := by decide

/-- C1 amended: path resolution keeps a supplied path inside the session's
backing directory provided the path contains no `..` segment (`.` and empty
segments are harmless); for a session identifier that is a plain segment,
the resolved path always extends `/tmp/<previewId>`. -/
theorem path_confined_without_dotdot (previewId p : String)
    (h0 : previewId ≠ "") (h1 : previewId ≠ ".") (h2 : previewId ≠ "..")
    (hp : ∀ s ∈ splitPath p, s ≠ "..") :
    underDir (containerDirSegs previewId)
      (joinResolve (containerDirSegs previewId) p) = true := by
  have h3 : normStep [] "tmp" = ["tmp"] := rfl
  have hdir : (containerDirSegs previewId).foldl normStep [] = containerDirSegs previewId := by
    simp [containerDirSegs, List.foldl, h3, normStep, h0, h1, h2]
  obtain ⟨ys, hys⟩ := foldl_normStep_extends (splitPath p) (containerDirSegs previewId) hp
  unfold joinResolve
  rw [List.foldl_append, hdir, hys]
  exact underDir_append _ _

/-- C1 witness: for session `abc` the nested path `src/app.js` resolves to a
location inside `/tmp/abc`. -/
theorem path_confined_without_dotdot_witness :
    underDir (containerDirSegs "abc")
      (joinResolve (containerDirSegs "abc") "src/app.js") = true :=
  path_confined_without_dotdot "abc" "src/app.js" (by decide) (by decide) (by decide)
    (by decide)

/-- C3 counterexample: a command that cannot be found does not fail at spawn
time: `exec` starts a shell regardless, so the request is answered with a
success payload carrying the process id (not an error response), and a
`process-completed` event with the shell's exit code 127 is broadcast —
contradicting the claim that no such event is ever produced. -/
theorem spawn_notfound_counterexample :
    ((executeLifecycle ⟨[], ⟨[], []⟩, []⟩ "s1" "nosuchcmd" "/" "p1"
        (commandNotFound "nosuchcmd: not found")).1 = ApiResult.success "p1")
    ∧ ((executeLifecycle ⟨[], ⟨[], []⟩, []⟩ "s1" "nosuchcmd" "/" "p1"
        (commandNotFound "nosuchcmd: not found")).2.2.filter Event.isCompleted
      = [Event.processCompleted "s1" "p1" 127]) := by decide

/-- C3 amended: a spawn request whose working directory cannot be prepared
(`fs.mkdirSync` throws) is answered with an explicit 500 error at spawn time,
no process is registered in the session's process set, and no event — in
particular no `process-completed` event — is ever broadcast for that request.
A command that is merely not found does not fail at spawn time (see the
counterexample): the shell runs and completion is broadcast with exit
code 127. -/
theorem spawn_mkdir_failure_no_process (st : ServerState)
    (previewId command cwdArg processId msg : String)
    (hc : command ≠ "") (hfresh : processRegistered st previewId processId = false) :
    ((executeLifecycle st previewId command cwdArg processId (.mkdirFail msg)).1
        = ApiResult.failure 500 msg)
    ∧ ((executeLifecycle st previewId command cwdArg processId (.mkdirFail msg)).2.2 = [])
    ∧ (processRegistered
        (executeLifecycle st previewId command cwdArg processId (.mkdirFail msg)).2.1
        previewId processId = false) := by
  refine ⟨by simp [executeLifecycle, hc], by simp [executeLifecycle, hc], ?_⟩
  cases hm : mGet st.containers previewId with
  | some c =>
    simpa [executeLifecycle, hc, getOrCreate, hm] using hfresh
  | none =>
    simp [executeLifecycle, hc, getOrCreate, hm, processRegistered, mGet_mSet_self,
      createContainer]

/-- C3 witness: with a fresh registry and a failing working-directory
preparation, the request is answered 500, nothing is broadcast and no process
is registered. -/
theorem spawn_mkdir_failure_no_process_witness :
    ((executeLifecycle ⟨[], ⟨[], []⟩, []⟩ "s1" "npm" "/app" "p1" (.mkdirFail "EEXIST")).1
        = ApiResult.failure 500 "EEXIST")
    ∧ ((executeLifecycle ⟨[], ⟨[], []⟩, []⟩ "s1" "npm" "/app" "p1" (.mkdirFail "EEXIST")).2.2 = [])
    ∧ (processRegistered
        (executeLifecycle ⟨[], ⟨[], []⟩, []⟩ "s1" "npm" "/app" "p1" (.mkdirFail "EEXIST")).2.1
        "s1" "p1" = false) :=
  spawn_mkdir_failure_no_process ⟨[], ⟨[], []⟩, []⟩ "s1" "npm" "/app" "p1" "EEXIST"
    (by decide) (by decide)

/-- C4: spawning a command whose child exits with code N broadcasts exactly
one `process-completed` event over the request's lifetime, it carries
`exitCode = N` (`error ? error.code : 0` equals N both when N is 0 and when
it is not), and the process id is no longer registered in the session's
process set afterward. -/
theorem process_exit_broadcasts_exit_code (st : ServerState)
    (previewId command cwdArg processId : String) (n : Nat) (outs errs : List String)
    (hc : command ≠ "") :
    ((executeLifecycle st previewId command cwdArg processId
        (.shellRuns n outs errs)).2.2.filter Event.isCompleted
      = [Event.processCompleted previewId processId n])
    ∧ (processRegistered
        (executeLifecycle st previewId command cwdArg processId
          (.shellRuns n outs errs)).2.1 previewId processId = false) := by
  constructor
  · by_cases hn : n = 0 <;>
      simp [executeLifecycle, hc, execCallback, List.filter_append,
        filter_isCompleted_map_output, Event.isCompleted, hn]
  · simp [executeLifecycle, hc, execCallback, updateContainer, processRegistered,
      mGet_mSet_self, any_filter_ne_self]

/-- C4 witness: a command exiting with code 2 after one stdout chunk yields
exactly one completion event with exit code 2, and `p1` is gone from the
process set. -/
theorem process_exit_broadcasts_exit_code_witness :
    ((executeLifecycle ⟨[], ⟨[], []⟩, []⟩ "s1" "ls" "/" "p1"
        (.shellRuns 2 ["out"] [])).2.2.filter Event.isCompleted
      = [Event.processCompleted "s1" "p1" 2])
    ∧ (processRegistered
        (executeLifecycle ⟨[], ⟨[], []⟩, []⟩ "s1" "ls" "/" "p1"
          (.shellRuns 2 ["out"] [])).2.1 "s1" "p1" = false) :=
  process_exit_broadcasts_exit_code ⟨[], ⟨[], []⟩, []⟩ "s1" "ls" "/" "p1" 2 ["out"] []
    (by decide)

/-- C5: the backend registers no `/api/files/rm` route at all, so every
remove request — in particular a non-recursive remove of a non-empty
directory — falls through to the framework's default handler: the response is
404 (a NotFound-class error), the server state (registry and mirrored disk,
hence the directory's contents) is unchanged whatever the registered
handlers would do, and the client facade surfaces the failure to the caller
as a `Failed to remove` error. -/
theorem rm_request_not_found_state_unchanged (st : ServerState) (previewId p : String)
    (recursiveFlag : Bool)
    (handler : RoutePattern → ServerState → Nat × ServerState) :
    (expressRespond st "POST" (rmRequestSegs previewId) handler = (404, st))
    ∧ (clientRm p recursiveFlag
        (expressRespond st "POST" (rmRequestSegs previewId) handler).1
      = Except.error ("Failed to remove: " ++ p)) := by
  have hroutes : routesFor "POST" (rmRequestSegs previewId) = [] := rfl
  constructor
  · simp [expressRespond, hroutes]
  · simp [expressRespond, hroutes, clientRm]

/-- C8 counterexample: pending cleanup timeouts are never cancelled.  Client 1
disconnects at t=10, scheduling a check at t=300010; client 2 connects at
t=100000 — before the grace period elapses, making the session non-empty
again (second conjunct) — and disconnects at t=200000; the stale check fires
at t=300010 and removes the session (first conjunct), even though a client
had connected within the grace window and the session had been client-less
for only 100010 ms. -/
theorem stale_cleanup_counterexample :
    ((run ⟨[], ⟨[], []⟩, []⟩ 0
        [(0, .connect "s1" ⟨1, true⟩),
         (10, .wsClose "s1" ⟨1, true⟩),
         (100000, .connect "s1" ⟨2, true⟩),
         (200000, .wsClose "s1" ⟨2, true⟩),
         (300010, .timerFire "s1")]).map
      (fun s => (mGet s.containers "s1").isSome) = some false)
    ∧ ((run ⟨[], ⟨[], []⟩, []⟩ 0
        [(0, .connect "s1" ⟨1, true⟩),
         (10, .wsClose "s1" ⟨1, true⟩),
         (100000, .connect "s1" ⟨2, true⟩)]).map
      (fun s => clientsEmptyB s "s1") = some false) := by decide

/-- C8 amended: the deferred cleanup re-checks emptiness instead of being
cancelled: a firing check leaves the session untouched whenever its client
set is non-empty at that moment, removes it whenever the client set is empty
at that moment (even if it has been empty for less than the full grace
period, as with a stale check), and no other event-loop step ever removes a
session — removal happens only through a scheduled check firing for that
session while it is client-less. -/
theorem cleanup_check_semantics :
    (∀ (st : ServerState) (pid : String) (tf : Nat) (c : Container),
        mGet st.containers pid = some c → c.clients.isEmpty = false →
        mGet (fireTimer st pid tf).containers pid = some c)
  ∧ (∀ (st : ServerState) (pid : String) (tf : Nat) (c : Container),
        mGet st.containers pid = some c → c.clients.isEmpty = true →
        mGet (fireTimer st pid tf).containers pid = none)
  ∧ (∀ (st : ServerState) (t : Nat) (e : SysEvent) (pid : String) (st' : ServerState),
        step st t e = some st' →
        (mGet st.containers pid).isSome = true →
        (mGet st'.containers pid).isSome = false →
        e = SysEvent.timerFire pid ∧ clientsEmptyB st pid = true) := by
  refine ⟨?_, ?_, ?_⟩
  · exact fireTimer_keeps_nonempty
  · exact fireTimer_removes_empty
  · intro st t e pid st' hstep hpre hpost
    cases e with
    | connect pid' cl =>
      exfalso
      simp only [step, Option.some.injEq] at hstep
      subst hstep
      rw [handleConnection_preserves_present st pid' cl pid hpre] at hpost
      simp at hpost
    | wsClose pid' cl =>
      exfalso
      simp only [step, Option.some.injEq] at hstep
      subst hstep
      rw [handleClose_preserves_present st pid' cl t pid hpre] at hpost
      simp at hpost
    | timerFire pid' =>
      simp only [step] at hstep
      by_cases hsched : st.timers.contains (pid', t) = true
      · rw [if_pos hsched] at hstep
        simp only [Option.some.injEq] at hstep
        subst hstep
        by_cases hpp : pid = pid'
        · subst hpp
          refine ⟨rfl, ?_⟩
          cases hg : mGet st.containers pid with
          | none =>
            rw [hg] at hpre
            simp at hpre
          | some c0 =>
            by_cases hemp : c0.clients.isEmpty = true
            · simp [clientsEmptyB, hg, hemp]
            · exfalso
              have hkeep := fireTimer_keeps_nonempty st pid t c0 hg
                (by simpa using hemp)
              rw [hkeep] at hpost
              simp at hpost
        · exfalso
          rw [fireTimer_other st pid' t pid hpp] at hpost
          rw [hpost] at hpre
          simp at hpre
      · rw [if_neg hsched] at hstep
        simp at hstep

/-- C8 witness: a check firing for a client-less session removes it from the
registry. -/
theorem cleanup_check_semantics_witness :
    mGet (fireTimer ⟨[("s1", ⟨"s1", ["tmp", "s1"], [], [], []⟩)], ⟨[], []⟩, [("s1", 300000)]⟩
        "s1" 300000).containers "s1" = none :=
  cleanup_check_semantics.2.1
    ⟨[("s1", ⟨"s1", ["tmp", "s1"], [], [], []⟩)], ⟨[], []⟩, [("s1", 300000)]⟩
    "s1" 300000 ⟨"s1", ["tmp", "s1"], [], [], []⟩ (by decide) (by decide)

/-- C9: broadcasts are scoped to the originating session.  A broadcast for a
session delivers only to open connections registered in that session's client
set (so a client of any other session never receives it), connections whose
channel is not open are skipped, and every event emitted by the write
endpoint, the execute endpoint lifecycle and the WebSocket message handler
carries the session identifier it was broadcast for in its `previewId`
field. -/
theorem broadcast_scoped_to_session :
    (∀ (st : ServerState) (pid : String) (ev : Event) (cl : Client),
        cl ∈ broadcastToContainer st pid ev →
        cl.isOpen = true ∧ clientRegistered st pid cl = true)
  ∧ (∀ (st : ServerState) (pid : String) (ev : Event) (cl : Client),
        cl.isOpen = false → cl ∉ broadcastToContainer st pid ev)
  ∧ (∀ (st : ServerState) (pid p c : String),
        (filesWrite st pid p c).2.2.all (fun e => decide (e.sessionId = pid)) = true)
  ∧ (∀ (st : ServerState) (pid command cwdArg processId : String) (beh : CmdBehavior),
        (executeLifecycle st pid command cwdArg processId beh).2.2.all
          (fun e => decide (e.sessionId = pid)) = true)
  ∧ (∀ (pid : String) (m : ClientMsg) (now : Nat),
        (handleWsMessage pid m now).all (fun e => decide (e.sessionId = pid)) = true) := by
  refine ⟨?_, ?_, ?_, ?_, ?_⟩
  · intro st pid ev cl hmem
    cases hm : mGet st.containers pid with
    | none => simp [broadcastToContainer, hm] at hmem
    | some cont =>
      simp only [broadcastToContainer, hm, List.mem_filter] at hmem
      refine ⟨hmem.2, ?_⟩
      simp only [clientRegistered, hm, List.any_eq_true]
      exact ⟨cl, hmem.1, by simp⟩
  · intro st pid ev cl hclosed hmem
    cases hm : mGet st.containers pid with
    | none => simp [broadcastToContainer, hm] at hmem
    | some cont =>
      simp only [broadcastToContainer, hm, List.mem_filter] at hmem
      rw [hclosed] at hmem
      exact Bool.false_ne_true hmem.2
  · intro st pid p c
    by_cases hp : p = ""
    · simp [filesWrite, hp]
    · simp only [filesWrite, if_neg hp]
      rcases hmd : mkdirSyncRec (getOrCreate st pid).2.disk
          (dirnameSegs (joinResolve (getOrCreate st pid).1.dir p)) with ⟨ok, d1⟩
      cases ok with
      | false => simp
      | true =>
        cases hfw : fsWriteFile d1 (joinResolve (getOrCreate st pid).1.dir p) c with
        | none =>
          simp only [hfw]
          simp
        | some d2 =>
          simp only [hfw]
          simp [Event.sessionId]
  · intro st pid command cwdArg processId beh
    by_cases hc : command = ""
    · simp [executeLifecycle, hc]
    · cases beh with
      | mkdirFail msg => simp [executeLifecycle, hc]
      | shellRuns n outs errs =>
        simp only [executeLifecycle, hc, if_neg hc, execCallback, List.all_eq_true]
        intro e he
        rcases List.mem_append.mp he with h1 | h2
        · rcases List.mem_append.mp h1 with h3 | h3 <;>
          · obtain ⟨o, _, rfl⟩ := List.mem_map.mp h3
            simp [Event.sessionId]
        · rcases List.mem_cons.mp h2 with h5 | h5
          · subst h5
            simp [Event.sessionId]
          · simp at h5
  · intro pid m now
    cases m <;> simp [handleWsMessage, Event.sessionId]

/-- C9 witness: in a registry with two sessions, the open client 1 of session
`s1` that receives a broadcast for `s1` is indeed open and registered under
`s1`. -/
theorem broadcast_scoped_to_session_witness :
    (Client.mk 1 true).isOpen = true
    ∧ clientRegistered
        ⟨[("s1", ⟨"s1", ["tmp", "s1"], [⟨1, true⟩, ⟨2, false⟩], [], []⟩),
          ("s2", ⟨"s2", ["tmp", "s2"], [⟨3, true⟩], [], []⟩)], ⟨[], []⟩, []⟩
        "s1" ⟨1, true⟩ = true :=
  broadcast_scoped_to_session.1
    ⟨[("s1", ⟨"s1", ["tmp", "s1"], [⟨1, true⟩, ⟨2, false⟩], [], []⟩),
      ("s2", ⟨"s2", ["tmp", "s2"], [⟨3, true⟩], [], []⟩)], ⟨[], []⟩, []⟩
    "s1" (.refreshPreview "s1") ⟨1, true⟩ (by decide)

end FlyBackend
